import Mathlib

/-!
# Verification of the me-inventory sale-commit and sync-replay core

Shallow embedding of the transactional core of the `me-inventory` backend:
`backend/routers/sales.py` (`create_sale`, `delete_sale`),
`backend/routers/pos.py` (`pos_sale`),
`backend/routers/sync.py` (`process_sync_queue`, `_process_sale_sync`),
over the data model of `backend/models.py` and the request schemas of
`backend/schemas.py`.

Modelling conventions:
* Python `int` becomes `Int` (ids, quantities, timestamps as `Nat` where the
  source only ever stores non-negative epoch-like values);
* Python `float` prices/amounts become `Rat` (the source only adds and
  multiplies values taken from the catalog, in a fixed left-to-right order);
* a SQLAlchemy session that raises before `commit()` is discarded by
  `get_db`'s `finally: db.close()`, so a failed endpoint call leaves the
  durable state untouched: endpoints are modelled as `Except`-valued
  functions plus a wrapper that keeps the old state on error;
* `datetime.utcnow()` is passed in as an explicit `now : Nat` parameter;
* the JSON payload of a sync-queue entry is modelled post-parsing as
  `Option SalePayload`, `none` standing for a string `json.loads` rejects.
-/

/-- `SaleStatus` enum of models.py (COMPLETED | PENDING | FAILED). -/
inductive SaleStatus where
  | completed
  | pending
  | failed
deriving Repr, DecidableEq

/-- `SyncStatus` enum of models.py (PENDING | SYNCED | FAILED). -/
inductive SyncStatus where
  | pending
  | synced
  | failed
deriving Repr, DecidableEq

/-- `Product` row of models.py (fields the core reads: id, name, price). -/
structure Product where
  id : Int
  name : String
  price : Rat
deriving Repr, DecidableEq

/-- `Inventory` row of models.py: `product_id` (unique), `quantity`,
`min_stock_level`. -/
structure Inventory where
  product_id : Int
  quantity : Int
  min_stock_level : Int
deriving Repr, DecidableEq

/-- `Sale` row of models.py: id, sale_date, total_amount, status,
sync_status. -/
structure SaleRow where
  id : Nat
  sale_date : Nat
  total_amount : Rat
  status : SaleStatus
  sync_status : SyncStatus
deriving Repr, DecidableEq

/-- `SaleItem` row of models.py: sale_id, product_id, quantity, unit_price,
subtotal. -/
structure SaleItemRow where
  sale_id : Nat
  product_id : Int
  quantity : Int
  unit_price : Rat
  subtotal : Rat
deriving Repr, DecidableEq

/-- One element of the `items` list of a sync-queue sale payload, as parsed
from JSON: `item.get("product_id")` / `item.get("quantity")` are `none` when
the key is absent or null. -/
structure PayloadItem where
  product_id : Option Int
  quantity : Option Int
deriving Repr, DecidableEq

/-- A parsed sync-queue sale payload: `payload.get("items", [])` and
`payload.get("sale_date")`. -/
structure SalePayload where
  items : List PayloadItem
  sale_date : Option Nat
deriving Repr, DecidableEq

/-- `SyncQueue` row of models.py: id, transaction_type, payload, status,
created_at, synced_at, error_message.  The row has no reference to any
`Sale`; `payload = none` models a string that `json.loads` rejects. -/
structure SyncQueueRow where
  id : Nat
  transaction_type : String
  payload : Option SalePayload
  status : SyncStatus
  created_at : Nat
  synced_at : Option Nat
  error_message : Option String
deriving Repr, DecidableEq

/-- The durable database state: the tables the core touches, plus the next
primary key the `sales` table will assign (`db.flush()` materialises it). -/
structure DBState where
  products : List Product
  inventories : List Inventory
  sales : List SaleRow
  sale_items : List SaleItemRow
  sync_queue : List SyncQueueRow
  next_sale_id : Nat
deriving Repr, DecidableEq

/-- `db.query(Product).filter(Product.id == pid).first()`. -/
def findProduct (db : DBState) (pid : Int) : Option Product :=
  db.products.find? (fun p => p.id == pid)

/-- `db.query(Inventory).filter(Inventory.product_id == pid).first()`
(`product_id` is unique, so `first()` is the row). -/
def findInventory (db : DBState) (pid : Int) : Option Inventory :=
  db.inventories.find? (fun i => i.product_id == pid)

/-- `inventory.quantity -= qty` on the (unique) row with this product id. -/
def deductInv (invs : List Inventory) (pid : Int) (qty : Int) : List Inventory :=
  invs.map (fun inv =>
    if inv.product_id = pid then { inv with quantity := inv.quantity - qty } else inv)

/-- `inventory.quantity += qty` on the (unique) row with this product id;
when no row matches, nothing changes (`if inventory:` guard in
`delete_sale`). -/
def restoreInv (invs : List Inventory) (pid : Int) (qty : Int) : List Inventory :=
  invs.map (fun inv =>
    if inv.product_id = pid then { inv with quantity := inv.quantity + qty } else inv)

/-- Pydantic schema `SaleItemCreate` of schemas.py (raw field values;
the `gt=0` constraint is the predicate `saleItemCreateValid` below). -/
structure SaleItemCreate where
  product_id : Int
  quantity : Int
deriving Repr, DecidableEq

/-- Pydantic schema `SaleCreate` of schemas.py. -/
structure SaleCreate where
  items : List SaleItemCreate
deriving Repr, DecidableEq

/-- schemas.py `SaleItemBase`: `quantity: int = Field(..., gt=0)`. -/
def saleItemCreateValid (it : SaleItemCreate) : Prop :=
  0 < it.quantity

/-- schemas.py `SaleCreate`: `items: List[SaleItemCreate] = Field(..., min_length=1)`
together with the per-item constraint; FastAPI rejects a request violating
this before the endpoint body runs. -/
def saleCreateValid (s : SaleCreate) : Prop :=
  s.items ≠ [] ∧ ∀ it ∈ s.items, saleItemCreateValid it

/-- The per-line record `sale_items_data` entry built by the validation
loops of `create_sale` / `pos_sale` / `_process_sale_sync`. -/
structure LineData where
  product_id : Int
  quantity : Int
  unit_price : Rat
  subtotal : Rat
deriving Repr, DecidableEq

/-- The error taxonomy of the live sale endpoints: the distinct
`HTTPException`s raised by `create_sale` (sales.py lines 64-96) and
`pos_sale` (pos.py lines 48-85). -/
inductive SaleError where
  | emptySale
  | productNotFound (pid : Int)
  | inventoryNotFound (pid : Int)
  | insufficientStock (name : String) (available requested : Int)
deriving Repr, DecidableEq

/-- The validation loop of `create_sale` (sales.py lines 74-108): for each
item resolve product and inventory, check stock, snapshot price and
subtotal.  The loop reads state only; no write happens before it ends. -/
def validateItems (db : DBState) : List SaleItemCreate → Except SaleError (List LineData)
  | [] => .ok []
  | item :: rest =>
    match findProduct db item.product_id with
    | none => .error (.productNotFound item.product_id)
    | some product =>
      match findInventory db item.product_id with
      | none => .error (.inventoryNotFound item.product_id)
      | some inventory =>
        if inventory.quantity < item.quantity then
          .error (.insufficientStock product.name inventory.quantity item.quantity)
        else
          match validateItems db rest with
          | .error e => .error e
          | .ok ls =>
            .ok (⟨item.product_id, item.quantity, product.price,
                  product.price * item.quantity⟩ :: ls)

/-- The write loop of `create_sale` (sales.py lines 120-132) and
`_process_sale_sync` (sync.py lines 165-174): add one `SaleItem` row per
line and deduct its quantity from the inventory row. -/
def applyLines (db : DBState) (sid : Nat) : List LineData → DBState
  | [] => db
  | l :: ls =>
    applyLines
      { db with
        sale_items := db.sale_items ++ [⟨sid, l.product_id, l.quantity, l.unit_price, l.subtotal⟩],
        inventories := deductInv db.inventories l.product_id l.quantity }
      sid ls

/-- `total_amount` accumulated by `total_amount += subtotal` over the
validated lines, starting from `0.0`. -/
def totalOf (lines : List LineData) : Rat :=
  lines.foldl (fun a l => a + l.subtotal) 0

/-- `create_sale` of sales.py (lines 54-136): reject an empty item list,
validate every line against the current state, then — only after all lines
pass — insert the `Sale` row, the `SaleItem` rows, and apply all stock
deductions, and commit.  Returns the new state and the new sale's id. -/
def create_sale (db : DBState) (now : Nat) (sale_data : SaleCreate) :
    Except SaleError (DBState × Nat) :=
  if sale_data.items = [] then .error .emptySale
  else
    match validateItems db sale_data.items with
    | .error e => .error e
    | .ok lines =>
      let sid := db.next_sale_id
      let sale : SaleRow :=
        { id := sid, sale_date := now, total_amount := totalOf lines,
          status := .completed, sync_status := .synced }
      let db1 := { db with sales := db.sales ++ [sale], next_sale_id := sid + 1 }
      .ok (applyLines db1 sid lines, sid)

/-- `pos_sale` of pos.py (lines 19-138): the body repeats the `create_sale`
algorithm verbatim (same validation loop, same write loop); the row-level
`with_for_update()` lock and the explicit `db.rollback()` on failure have no
effect in this sequential model, in which every failure path discards the
session anyway. -/
def pos_sale (db : DBState) (now : Nat) (sale_data : SaleCreate) :
    Except SaleError (DBState × Nat) :=
  create_sale db now sale_data

/-- The observable effect of one live endpoint call: on success the
committed state, on an exception the old state — `get_db` closes the
session without committing, discarding any pending change. -/
def create_sale_endpoint (db : DBState) (now : Nat) (sale_data : SaleCreate) :
    DBState × Option SaleError :=
  match create_sale db now sale_data with
  | .ok (db2, _) => (db2, none)
  | .error e => (db, some e)

/-- The observable effect of one `pos_sale` call (pos.py additionally calls
`db.rollback()` before re-raising, with the same observable result). -/
def pos_sale_endpoint (db : DBState) (now : Nat) (sale_data : SaleCreate) :
    DBState × Option SaleError :=
  match pos_sale db now sale_data with
  | .ok (db2, _) => (db2, none)
  | .error e => (db, some e)

/-- Python truthiness test used by sync.py line 119
(`if not product_id or not quantity`): an absent/null field or the integer
`0` is falsy; every other integer — negative ones included — is truthy. -/
def pyFalsy : Option Int → Bool
  | none => true
  | some v => v == 0

/-- Message of sync.py lines 137-141. -/
def insufficientSyncMsg (name : String) (available requested : Int) : String :=
  "Insufficient stock for " ++ (name ++ (". Available: " ++ (toString available ++
    (", Requested: " ++ (toString requested ++ ". Manual review required.")))))

/-- Stand-in for the (always non-empty) message of the
`json.JSONDecodeError` that `json.loads` raises on a malformed payload
string (sync.py line 105). -/
def jsonErrorMsg : String :=
  "Expecting value: line 1 column 1 (char 0)"

/-- The validation loop of `_process_sale_sync` (sync.py lines 115-152):
per item, the falsiness check on `product_id`/`quantity`, product lookup,
inventory lookup (the `with_for_update()` lock is a no-op sequentially),
stock check, price snapshot.  Errors are the `str(e)` of the `ValueError`
raised there. -/
def validateSyncItems (db : DBState) : List PayloadItem → Except String (List LineData)
  | [] => .ok []
  | item :: rest =>
    if pyFalsy item.product_id || pyFalsy item.quantity then
      .error "Invalid sale item format"
    else
      let pid := item.product_id.getD 0
      let qty := item.quantity.getD 0
      match findProduct db pid with
      | none => .error ("Product " ++ (toString pid ++ " not found"))
      | some product =>
        match findInventory db pid with
        | none => .error ("Inventory for product " ++ (toString pid ++ " not found"))
        | some inventory =>
          if inventory.quantity < qty then
            .error (insufficientSyncMsg product.name inventory.quantity qty)
          else
            match validateSyncItems db rest with
            | .error e => .error e
            | .ok ls =>
              .ok (⟨pid, qty, product.price, product.price * qty⟩ :: ls)

/-- `_process_sale_sync` of sync.py (lines 101-185): parse the payload,
reject an empty item list, validate every line, then create the `Sale` and
its `SaleItem` rows, deduct stock, and mark the entry SYNCED with
`synced_at = now`.  `sale_date` is the payload's offline timestamp when
present, else commit time.  Any failure raises before the first write; the
updated entry is returned alongside the new state. -/
def process_sale_sync (db : DBState) (now : Nat) (sync_item : SyncQueueRow) :
    Except String (DBState × SyncQueueRow) :=
  match sync_item.payload with
  | none => .error jsonErrorMsg
  | some payload =>
    if payload.items = [] then .error "Sale must contain at least one item"
    else
      match validateSyncItems db payload.items with
      | .error e => .error e
      | .ok lines =>
        let sid := db.next_sale_id
        let sale : SaleRow :=
          { id := sid,
            sale_date := match payload.sale_date with | some t => t | none => now,
            total_amount := totalOf lines,
            status := .completed, sync_status := .synced }
        let db1 := { db with sales := db.sales ++ [sale], next_sale_id := sid + 1 }
        .ok (applyLines db1 sid lines,
             { sync_item with status := .synced, synced_at := some now })

/-- One iteration of the replay loop of `process_sync_queue` (sync.py lines
78-92): a `sale` entry goes through `_process_sale_sync`; an exception is
caught, the entry is marked FAILED with `str(e)`, and the loop continues;
any other `transaction_type` is marked FAILED with the unknown-type
message.  The `Bool` records whether `processed` (true) or `failed` (false)
was incremented. -/
def processEntry (db : DBState) (now : Nat) (e : SyncQueueRow) :
    DBState × SyncQueueRow × Bool :=
  if e.transaction_type = "sale" then
    match process_sale_sync db now e with
    | .ok (db2, e2) => (db2, e2, true)
    | .error msg => (db, { e with status := .failed, error_message := some msg }, false)
  else
    (db,
     { e with
       status := .failed,
       error_message := some ("Unknown transaction type: " ++ e.transaction_type) },
     false)

/-- The replay loop over the pending snapshot, threading the state and
returning the updated entries in order together with the final
`(processed, failed)` tally. -/
def processLoop (db : DBState) (now : Nat) :
    List SyncQueueRow → DBState × List SyncQueueRow × Nat × Nat
  | [] => (db, [], 0, 0)
  | e :: rest =>
    let r1 := processEntry db now e
    let r2 := processLoop r1.1 now rest
    (r2.1, r1.2.1 :: r2.2.1,
     r2.2.2.1 + (if r1.2.2 then 1 else 0),
     r2.2.2.2 + (if r1.2.2 then 0 else 1))

/-- The comparison `ORDER BY created_at` sorts by. -/
def createdAtLE (a b : SyncQueueRow) : Prop :=
  a.created_at ≤ b.created_at

instance : DecidableRel createdAtLE :=
  fun a b => Nat.decLe a.created_at b.created_at

instance : IsTotal SyncQueueRow createdAtLE :=
  ⟨fun a b => Nat.le_total a.created_at b.created_at⟩

instance : IsTrans SyncQueueRow createdAtLE :=
  ⟨fun _ _ _ => Nat.le_trans⟩

/-- `.order_by(SyncQueue.created_at)`: a stable sort of the selected rows
by ascending `created_at`. -/
def orderByCreatedAt (l : List SyncQueueRow) : List SyncQueueRow :=
  l.insertionSort createdAtLE

/-- The pending snapshot taken by sync.py lines 68-70:
`filter(SyncQueue.status == PENDING).order_by(created_at).all()`. -/
def pendingSorted (db : DBState) : List SyncQueueRow :=
  orderByCreatedAt (db.sync_queue.filter (fun e => decide (e.status = SyncStatus.pending)))

/-- Write the updated entry objects back into the table: each row whose id
was processed takes its updated value (the session flushes the mutated ORM
objects at `db.commit()`); ids are primary keys. -/
def updateEntries (queue : List SyncQueueRow) (updated : List SyncQueueRow) :
    List SyncQueueRow :=
  queue.map (fun e =>
    match updated.find? (fun u => u.id == e.id) with
    | some u => u
    | none => e)

/-- Message of sync.py lines 96-98. -/
def syncCompleteMsg (processed failed : Nat) : String :=
  "Sync complete. Processed: " ++ toString processed ++ ", Failed: " ++ toString failed

/-- `process_sync_queue` of sync.py (lines 59-98): snapshot the PENDING
entries in `created_at` order; if none, report so and change nothing;
otherwise run the replay loop over the snapshot, commit, and report the
tally. -/
def process_sync_queue (db : DBState) (now : Nat) : DBState × String :=
  let pending := pendingSorted db
  if pending.isEmpty then (db, "No pending items to sync")
  else
    let r := processLoop db now pending
    ({ r.1 with sync_queue := updateEntries r.1.sync_queue r.2.1 },
     syncCompleteMsg r.2.2.1 r.2.2.2)

/-- `delete_sale` of sales.py (lines 139-166): 404 when the sale is absent;
otherwise, when `restore_inventory` is true, add each item's quantity back
to its product's inventory row (skipping items whose inventory row is
missing), then delete the sale and (by cascade) its items. -/
def delete_sale (db : DBState) (sale_id : Nat) (restore_inventory : Bool) :
    Except String DBState :=
  match db.sales.find? (fun s => s.id == sale_id) with
  | none => .error ("Sale with id " ++ toString sale_id ++ " not found")
  | some _ =>
    let items := db.sale_items.filter (fun it => it.sale_id == sale_id)
    let invs :=
      if restore_inventory then
        items.foldl (fun acc it => restoreInv acc it.product_id it.quantity) db.inventories
      else db.inventories
    .ok { db with
          inventories := invs,
          sales := db.sales.filter (fun s => !(s.id == sale_id)),
          sale_items := db.sale_items.filter (fun it => !(it.sale_id == sale_id)) }

/-! ### Supporting definitions and lemmas -/

/-- Total quantity the lines `ls` carry for product `pid`. -/
def linesQty (ls : List LineData) (pid : Int) : Int :=
  (ls.map (fun l => if l.product_id = pid then l.quantity else 0)).sum

/-- The `SaleItem` rows the write loop inserts for sale `sid`. -/
def saleItemsOf (sid : Nat) (ls : List LineData) : List SaleItemRow :=
  ls.map (fun l => ⟨sid, l.product_id, l.quantity, l.unit_price, l.subtotal⟩)

/-- Total quantity a list of `SaleItem` rows carries for product `pid`. -/
def qtyOfItems (items : List SaleItemRow) (pid : Int) : Int :=
  (items.map (fun it => if it.product_id = pid then it.quantity else 0)).sum

theorem strAppendLeftNe (s t : String) (h : s.length ≠ 0) : (s ++ t) ≠ "" := by
  intro hc
  have h2 := congrArg String.length hc
  rw [String.length_append] at h2
  simp at h2
  exact h h2.1

@[simp]
theorem linesQty_nil (pid : Int) : linesQty [] pid = 0 := rfl

theorem linesQty_cons (l : LineData) (ls : List LineData) (pid : Int) :
    linesQty (l :: ls) pid =
      (if l.product_id = pid then l.quantity else 0) + linesQty ls pid := by
  simp [linesQty]

@[simp]
theorem qtyOfItems_nil (pid : Int) : qtyOfItems [] pid = 0 := rfl

theorem qtyOfItems_cons (it : SaleItemRow) (its : List SaleItemRow) (pid : Int) :
    qtyOfItems (it :: its) pid =
      (if it.product_id = pid then it.quantity else 0) + qtyOfItems its pid := by
  simp [qtyOfItems]

/-- The write loop, summarised: it appends exactly one `SaleItem` row per
line and subtracts, per inventory row, the total quantity of the lines that
reference it; nothing else changes. -/
theorem applyLines_eq (sid : Nat) :
    ∀ (ls : List LineData) (db : DBState),
      applyLines db sid ls =
        { db with
          sale_items := db.sale_items ++ saleItemsOf sid ls,
          inventories := db.inventories.map (fun inv =>
            { inv with quantity := inv.quantity - linesQty ls inv.product_id }) } := by
  intro ls
  induction ls with
  | nil =>
    intro db
    simp [applyLines, saleItemsOf]
  | cons l ls ih =>
    intro db
    rw [applyLines, ih]
    congr 1
    · simp only [deductInv, List.map_map]
      apply List.map_congr_left
      intro inv _
      simp only [Function.comp]
      by_cases h : inv.product_id = l.product_id
      · simp only [if_pos h]
        have h2 : l.product_id = inv.product_id := h.symm
        simp [linesQty_cons, h2]
        omega
      · have h2 : ¬ l.product_id = inv.product_id := fun hh => h hh.symm
        simp only [if_neg h, linesQty_cons, if_neg h2]
        congr 1
        omega
    · simp [saleItemsOf]

/-- The restore loop of `delete_sale`, summarised: per inventory row it adds
the total quantity of the deleted sale's items that reference it. -/
theorem restore_foldl :
    ∀ (items : List SaleItemRow) (invs : List Inventory),
      items.foldl (fun acc it => restoreInv acc it.product_id it.quantity) invs =
        invs.map (fun inv =>
          { inv with quantity := inv.quantity + qtyOfItems items inv.product_id }) := by
  intro items
  induction items with
  | nil =>
    intro invs
    simp
  | cons it its ih =>
    intro invs
    rw [List.foldl_cons, ih]
    simp only [restoreInv, List.map_map]
    apply List.map_congr_left
    intro inv _
    simp only [Function.comp]
    by_cases h : inv.product_id = it.product_id
    · simp only [if_pos h]
      have h2 : it.product_id = inv.product_id := h.symm
      simp [qtyOfItems_cons, h2]
      omega
    · have h2 : ¬ it.product_id = inv.product_id := fun hh => h hh.symm
      simp only [if_neg h, qtyOfItems_cons, if_neg h2]
      congr 1
      omega

theorem totalOf_eq_sum (ls : List LineData) :
    totalOf ls = (ls.map (fun l => l.subtotal)).sum := by
  simp only [totalOf, List.sum_eq_foldl, ← List.foldl_map]

/-- The Python truthiness test accepts exactly the present, nonzero
integers: negative quantities pass it. -/
theorem pyFalsy_eq_false (x : Option Int) :
    pyFalsy x = false ↔ ∃ v, x = some v ∧ v ≠ 0 := by
  cases x with
  | none => simp [pyFalsy]
  | some v => simp [pyFalsy]

/-- What a successful run of the `create_sale` validation loop guarantees,
line by line: each produced record carries the item's product id and
quantity, the catalog price of an existing product as `unit_price`,
`subtotal = price * quantity`, and the stock check passed against the
pre-commit state. -/
theorem validateItems_ok {db : DBState} :
    ∀ {items : List SaleItemCreate} {lines : List LineData},
      validateItems db items = .ok lines →
      List.Forall₂ (fun (item : SaleItemCreate) (l : LineData) =>
        l.product_id = item.product_id ∧ l.quantity = item.quantity ∧
        ∃ product inventory,
          findProduct db item.product_id = some product ∧
          findInventory db item.product_id = some inventory ∧
          ¬ inventory.quantity < item.quantity ∧
          l.unit_price = product.price ∧
          l.subtotal = product.price * item.quantity) items lines := by
  intro items
  induction items with
  | nil =>
    intro lines h
    simp only [validateItems] at h
    cases h
    exact .nil
  | cons item rest ih =>
    intro lines h
    cases hp : findProduct db item.product_id with
    | none => simp [validateItems, hp] at h
    | some product =>
      cases hi : findInventory db item.product_id with
      | none => simp [validateItems, hp, hi] at h
      | some inventory =>
        by_cases hq : inventory.quantity < item.quantity
        · simp [validateItems, hp, hi, hq] at h
        · cases hv : validateItems db rest with
          | error e => simp [validateItems, hp, hi, hq, hv] at h
          | ok ls =>
            simp only [validateItems, hp, hi, if_neg hq, hv, Except.ok.injEq] at h
            subst h
            exact .cons ⟨rfl, rfl, product, inventory, hp, hi, hq, rfl, rfl⟩ (ih hv)

/-- What a successful run of the `_process_sale_sync` validation loop
guarantees, line by line: the raw fields were present and nonzero (nothing
more — in particular negatives pass), the product exists, its catalog price
is snapshotted, and the stock check passed. -/
theorem validateSyncItems_ok {db : DBState} :
    ∀ {items : List PayloadItem} {lines : List LineData},
      validateSyncItems db items = .ok lines →
      List.Forall₂ (fun (item : PayloadItem) (l : LineData) =>
        item.product_id = some l.product_id ∧ item.quantity = some l.quantity ∧
        l.product_id ≠ 0 ∧ l.quantity ≠ 0 ∧
        ∃ product inventory,
          findProduct db l.product_id = some product ∧
          findInventory db l.product_id = some inventory ∧
          ¬ inventory.quantity < l.quantity ∧
          l.unit_price = product.price ∧
          l.subtotal = product.price * l.quantity) items lines := by
  intro items
  induction items with
  | nil =>
    intro lines h
    simp only [validateSyncItems] at h
    cases h
    exact .nil
  | cons item rest ih =>
    intro lines h
    cases hf : (pyFalsy item.product_id || pyFalsy item.quantity) with
    | true => simp [validateSyncItems, hf] at h
    | false =>
      simp only [Bool.or_eq_false_iff] at hf
      obtain ⟨pid, hpid, hpid0⟩ := (pyFalsy_eq_false item.product_id).mp hf.1
      obtain ⟨qty, hqty, hqty0⟩ := (pyFalsy_eq_false item.quantity).mp hf.2
      cases hp : findProduct db pid with
      | none => simp [validateSyncItems, pyFalsy, hpid, hqty, hpid0, hqty0, hp] at h
      | some product =>
        cases hi : findInventory db pid with
        | none => simp [validateSyncItems, pyFalsy, hpid, hqty, hpid0, hqty0, hp, hi] at h
        | some inventory =>
          by_cases hq : inventory.quantity < qty
          · simp [validateSyncItems, pyFalsy, hpid, hqty, hpid0, hqty0, hp, hi, hq] at h
          · cases hv : validateSyncItems db rest with
            | error e =>
              simp [validateSyncItems, pyFalsy, hpid, hqty, hpid0, hqty0, hp, hi, hq, hv] at h
            | ok ls =>
              simp [validateSyncItems, pyFalsy, hpid, hqty, hpid0, hqty0, hp, hi, hq, hv] at h
              subst h
              exact .cons ⟨hpid, hqty, hpid0, hqty0, product, inventory, hp, hi, hq, rfl, rfl⟩
                (ih hv)

/-- What a successful `create_sale` commit does to the state, component by
component. -/
theorem create_sale_ok {db db' : DBState} {now sid : Nat} {req : SaleCreate}
    (h : create_sale db now req = .ok (db', sid)) :
    sid = db.next_sale_id ∧ req.items ≠ [] ∧
    ∃ lines, validateItems db req.items = .ok lines ∧
      db'.sales = db.sales ++
        [⟨db.next_sale_id, now, totalOf lines, .completed, .synced⟩] ∧
      db'.sale_items = db.sale_items ++ saleItemsOf db.next_sale_id lines ∧
      db'.inventories = db.inventories.map (fun inv =>
        { inv with quantity := inv.quantity - linesQty lines inv.product_id }) ∧
      db'.products = db.products ∧
      db'.sync_queue = db.sync_queue ∧
      db'.next_sale_id = db.next_sale_id + 1 := by
  by_cases he : req.items = []
  · simp [create_sale, he] at h
  · cases hv : validateItems db req.items with
    | error e => simp [create_sale, he, hv] at h
    | ok lines =>
      simp only [create_sale, if_neg he, hv, Except.ok.injEq, Prod.mk.injEq] at h
      obtain ⟨hdb, hsid⟩ := h
      rw [applyLines_eq] at hdb
      subst hdb
      exact ⟨hsid.symm, he, lines, rfl, rfl, rfl, rfl, rfl, rfl, rfl⟩

/-- What a successful `_process_sale_sync` does, component by component:
the new sale and its items are appended, stock is deducted, the entry is
marked SYNCED and stamped, and the queue table itself is untouched. -/
theorem process_sale_sync_ok {db db' : DBState} {now : Nat}
    {it it' : SyncQueueRow}
    (h : process_sale_sync db now it = .ok (db', it')) :
    ∃ payload lines,
      it.payload = some payload ∧ payload.items ≠ [] ∧
      validateSyncItems db payload.items = .ok lines ∧
      it' = { it with status := .synced, synced_at := some now } ∧
      db'.sales = db.sales ++
        [⟨db.next_sale_id,
          (match payload.sale_date with | some t => t | none => now),
          totalOf lines, .completed, .synced⟩] ∧
      db'.sale_items = db.sale_items ++ saleItemsOf db.next_sale_id lines ∧
      db'.inventories = db.inventories.map (fun inv =>
        { inv with quantity := inv.quantity - linesQty lines inv.product_id }) ∧
      db'.products = db.products ∧
      db'.sync_queue = db.sync_queue ∧
      db'.next_sale_id = db.next_sale_id + 1 := by
  cases hpay : it.payload with
  | none => simp [process_sale_sync, hpay] at h
  | some payload =>
    by_cases he : payload.items = []
    · simp [process_sale_sync, hpay, he] at h
    · cases hv : validateSyncItems db payload.items with
      | error e => simp [process_sale_sync, hpay, he, hv] at h
      | ok lines =>
        simp only [process_sale_sync, hpay, if_neg he, hv, Except.ok.injEq,
          Prod.mk.injEq] at h
        obtain ⟨hdb, hit⟩ := h
        rw [applyLines_eq] at hdb
        subst hdb
        exact ⟨payload, lines, rfl, he, hv, hit.symm, rfl, rfl, rfl, rfl, rfl, rfl⟩

/-- Every `ValueError` message the sync validation loop raises is
non-empty. -/
theorem validateSyncItems_error_ne {db : DBState} :
    ∀ {items : List PayloadItem} {e : String},
      validateSyncItems db items = .error e → e ≠ "" := by
  intro items
  induction items with
  | nil => intro e h; simp [validateSyncItems] at h
  | cons item rest ih =>
    intro e h
    cases hf : (pyFalsy item.product_id || pyFalsy item.quantity) with
    | true =>
      simp [validateSyncItems, hf] at h
      subst h
      decide
    | false =>
      cases hp : findProduct db (item.product_id.getD 0) with
      | none =>
        simp only [validateSyncItems, hf, Bool.false_eq_true, if_false, hp,
          Except.error.injEq] at h
        subst h
        exact strAppendLeftNe _ _ (by decide)
      | some product =>
        cases hi : findInventory db (item.product_id.getD 0) with
        | none =>
          simp only [validateSyncItems, hf, Bool.false_eq_true, if_false, hp, hi,
            Except.error.injEq] at h
          subst h
          exact strAppendLeftNe _ _ (by decide)
        | some inventory =>
          by_cases hq : inventory.quantity < item.quantity.getD 0
          · simp only [validateSyncItems, hf, Bool.false_eq_true, if_false, hp, hi,
              if_pos hq, Except.error.injEq] at h
            subst h
            simp only [insufficientSyncMsg]
            exact strAppendLeftNe _ _ (by decide)
          · cases hv : validateSyncItems db rest with
            | error e2 =>
              simp only [validateSyncItems, hf, Bool.false_eq_true, if_false, hp, hi,
                if_neg hq, hv, Except.error.injEq] at h
              subst h
              exact ih hv
            | ok ls =>
              simp [validateSyncItems, hf, hp, hi, hq, hv] at h

/-- Every message `_process_sale_sync` can raise is non-empty. -/
theorem process_sale_sync_error_ne {db : DBState} {now : Nat}
    {it : SyncQueueRow} {e : String}
    (h : process_sale_sync db now it = .error e) : e ≠ "" := by
  cases hpay : it.payload with
  | none =>
    simp only [process_sale_sync, hpay, Except.error.injEq] at h
    subst h
    decide
  | some payload =>
    by_cases he : payload.items = []
    · simp only [process_sale_sync, hpay, if_pos he, Except.error.injEq] at h
      subst h
      decide
    · cases hv : validateSyncItems db payload.items with
      | error e2 =>
        simp only [process_sale_sync, hpay, if_neg he, hv, Except.error.injEq] at h
        subst h
        exact validateSyncItems_error_ne hv
      | ok lines => simp [process_sale_sync, hpay, he, hv] at h

/-- Per-iteration contract of the replay loop: the written-back entry keeps
its id; a counted success is SYNCED with `synced_at` stamped; a counted
failure is FAILED with a non-empty error message and leaves the database
untouched; and the queue table is never touched by the iteration itself. -/
theorem processEntry_spec (db : DBState) (now : Nat) (e : SyncQueueRow) :
    (processEntry db now e).2.1.id = e.id ∧
    (processEntry db now e).1.sync_queue = db.sync_queue ∧
    ((processEntry db now e).2.2 = true →
      (processEntry db now e).2.1.status = SyncStatus.synced ∧
      (processEntry db now e).2.1.synced_at = some now) ∧
    ((processEntry db now e).2.2 = false →
      (processEntry db now e).2.1.status = SyncStatus.failed ∧
      (processEntry db now e).1 = db ∧
      ∃ m, (processEntry db now e).2.1.error_message = some m ∧ m ≠ "") := by
  by_cases ht : e.transaction_type = "sale"
  · cases hs : process_sale_sync db now e with
    | ok r =>
      obtain ⟨payload, lines, hpay, hne, hval, hit, hsales, hitems, hinv, hprod, hq, hnid⟩ :=
        @process_sale_sync_ok db r.1 now e r.2 (by rw [hs])
      have hpe : processEntry db now e = (r.1, r.2, true) := by
        simp [processEntry, ht, hs]
      rw [hpe]
      exact ⟨by rw [hit], hq, fun _ => ⟨by rw [hit], by rw [hit]⟩, fun hc => by simp at hc⟩
    | error msg =>
      have hpe : processEntry db now e =
          (db, { e with status := .failed, error_message := some msg }, false) := by
        simp [processEntry, ht, hs]
      rw [hpe]
      exact ⟨rfl, rfl, fun hc => by simp at hc,
        fun _ => ⟨rfl, rfl, msg, rfl, process_sale_sync_error_ne hs⟩⟩
  · have hpe : processEntry db now e =
        (db,
         { e with
           status := .failed,
           error_message := some ("Unknown transaction type: " ++ e.transaction_type) },
         false) := by
      simp [processEntry, ht]
    rw [hpe]
    exact ⟨rfl, rfl, fun hc => by simp at hc,
      fun _ => ⟨rfl, rfl, "Unknown transaction type: " ++ e.transaction_type, rfl,
        strAppendLeftNe _ _ (by decide)⟩⟩

/-- The replay loop, summarised over a whole batch: it never touches the
queue table itself; it yields exactly one written-back entry per attempted
entry, in order, each keeping its id and ending SYNCED-and-stamped or
FAILED-with-a-non-empty-message; and the final tally counts exactly the
SYNCED and the FAILED outcomes. -/
theorem processLoop_spec (now : Nat) :
    ∀ (l : List SyncQueueRow) (db : DBState),
      (processLoop db now l).1.sync_queue = db.sync_queue ∧
      List.Forall₂ (fun e u => u.id = e.id ∧
        ((u.status = SyncStatus.synced ∧ u.synced_at = some now) ∨
         (u.status = SyncStatus.failed ∧ ∃ m, u.error_message = some m ∧ m ≠ "")))
        l (processLoop db now l).2.1 ∧
      (processLoop db now l).2.2.1 =
        ((processLoop db now l).2.1.filter
          (fun u => decide (u.status = SyncStatus.synced))).length ∧
      (processLoop db now l).2.2.2 =
        ((processLoop db now l).2.1.filter
          (fun u => decide (u.status = SyncStatus.failed))).length := by
  intro l
  induction l with
  | nil => intro db; exact ⟨rfl, .nil, rfl, rfl⟩
  | cons e l ih =>
    intro db
    obtain ⟨hid, hqueue, htrue, hfalse⟩ := processEntry_spec db now e
    obtain ⟨ihq, ihf, ihp, ihfail⟩ := ih (processEntry db now e).1
    refine ⟨?_, ?_, ?_, ?_⟩
    · show (processLoop (processEntry db now e).1 now l).1.sync_queue = db.sync_queue
      rw [ihq, hqueue]
    · refine List.Forall₂.cons ⟨hid, ?_⟩ ihf
      cases hb : (processEntry db now e).2.2 with
      | true => exact .inl (htrue hb)
      | false =>
        obtain ⟨hst, _, hmsg⟩ := hfalse hb
        exact .inr ⟨hst, hmsg⟩
    · cases hb : (processEntry db now e).2.2 with
      | true =>
        obtain ⟨hst, _⟩ := htrue hb
        simp [processLoop, hb, List.filter_cons, hst, ihp]
      | false =>
        obtain ⟨hst, _, _⟩ := hfalse hb
        simp [processLoop, hb, List.filter_cons, hst, ihp]
    · cases hb : (processEntry db now e).2.2 with
      | true =>
        obtain ⟨hst, _⟩ := htrue hb
        simp [processLoop, hb, List.filter_cons, hst, ihfail]
      | false =>
        obtain ⟨hst, _, _⟩ := hfalse hb
        simp [processLoop, hb, List.filter_cons, hst, ihfail]

/-- The pending snapshot is sorted by ascending `created_at`. -/
theorem pendingSorted_sorted (db : DBState) :
    List.Sorted createdAtLE (pendingSorted db) :=
  List.sorted_insertionSort createdAtLE _

/-- An entry is in the pending snapshot iff it is a PENDING row of the
queue table. -/
theorem mem_pendingSorted {db : DBState} {e : SyncQueueRow} :
    e ∈ pendingSorted db ↔ e ∈ db.sync_queue ∧ e.status = SyncStatus.pending := by
  simp [pendingSorted, orderByCreatedAt, List.mem_insertionSort, List.mem_filter]

theorem forall₂_mem_right {α β : Type} {R : α → β → Prop} :
    ∀ {l₁ : List α} {l₂ : List β}, List.Forall₂ R l₁ l₂ →
      ∀ b ∈ l₂, ∃ a ∈ l₁, R a b := by
  intro l₁ l₂ h
  induction h with
  | nil => intro b hb; cases hb
  | @cons a b l₁ l₂ hR _ ih =>
    intro c hc
    rcases List.mem_cons.mp hc with h1 | h2
    · exact ⟨a, List.mem_cons_self a l₁, h1 ▸ hR⟩
    · obtain ⟨a2, ha2, hr2⟩ := ih c h2
      exact ⟨a2, List.mem_cons_of_mem a ha2, hr2⟩

/-- A row whose id no written-back entry carries survives the write-back
unchanged. -/
theorem mem_updateEntries_self {queue updated : List SyncQueueRow}
    {e : SyncQueueRow} (he : e ∈ queue) (hn : ∀ u ∈ updated, u.id ≠ e.id) :
    e ∈ updateEntries queue updated := by
  have hfind : updated.find? (fun u => u.id == e.id) = none := by
    rw [List.find?_eq_none]
    intro u hu
    simp [hn u hu]
  unfold updateEntries
  exact List.mem_map.mpr ⟨e, he, by simp [hfind]⟩

/-- When the snapshot is non-empty, `process_sync_queue` runs the loop over
it, writes the processed entries back and reports the tally. -/
theorem process_sync_queue_eq {db : DBState} {now : Nat}
    (h : pendingSorted db ≠ []) :
    process_sync_queue db now =
      ({ (processLoop db now (pendingSorted db)).1 with
         sync_queue :=
           updateEntries (processLoop db now (pendingSorted db)).1.sync_queue
             (processLoop db now (pendingSorted db)).2.1 },
       syncCompleteMsg (processLoop db now (pendingSorted db)).2.2.1
         (processLoop db now (pendingSorted db)).2.2.2) := by
  rw [process_sync_queue]
  rw [if_neg (by simpa using h)]

/-- When nothing is pending, `process_sync_queue` reports so and changes
nothing. -/
theorem process_sync_queue_empty {db : DBState} {now : Nat}
    (h : pendingSorted db = []) :
    process_sync_queue db now = (db, "No pending items to sync") := by
  rw [process_sync_queue]
  rw [if_pos (by simpa using h)]

/-- Per-line facts about the records a successful live validation built:
each comes from a request item, snapshots the catalog price of an existing
product, and has `subtotal = unit_price * quantity`. -/
theorem validateItems_line_mem {db : DBState} {items : List SaleItemCreate}
    {lines : List LineData} (h : validateItems db items = .ok lines) :
    ∀ l ∈ lines, ∃ item ∈ items,
      l.product_id = item.product_id ∧ l.quantity = item.quantity ∧
      l.subtotal = l.unit_price * l.quantity ∧
      ∃ product, findProduct db l.product_id = some product ∧
        l.unit_price = product.price := by
  intro l hl
  obtain ⟨item, hitem, hpid, hqty, product, inventory, hp, hi, hq, hup, hsub⟩ :=
    forall₂_mem_right (validateItems_ok h) l hl
  refine ⟨item, hitem, hpid, hqty, ?_, product, ?_, hup⟩
  · rw [hsub, hup, hqty]
  · rw [hpid]; exact hp

/-- Per-line facts about the records a successful sync validation built:
quantities are nonzero (nothing stronger), prices are catalog snapshots,
and `subtotal = unit_price * quantity`. -/
theorem validateSyncItems_line_mem {db : DBState} {items : List PayloadItem}
    {lines : List LineData} (h : validateSyncItems db items = .ok lines) :
    ∀ l ∈ lines, l.quantity ≠ 0 ∧
      l.subtotal = l.unit_price * l.quantity ∧
      ∃ product, findProduct db l.product_id = some product ∧
        l.unit_price = product.price := by
  intro l hl
  obtain ⟨item, _, _, _, _, hq0, product, inventory, hp, hi, hq, hup, hsub⟩ :=
    forall₂_mem_right (validateSyncItems_ok h) l hl
  refine ⟨hq0, ?_, product, hp, hup⟩
  rw [hsub, hup]

theorem saleItemsOf_map_subtotal (sid : Nat) (lines : List LineData) :
    (saleItemsOf sid lines).map (fun it => it.subtotal) =
      lines.map (fun l => l.subtotal) := by
  simp [saleItemsOf, List.map_map]

theorem qtyOfItems_saleItemsOf (sid : Nat) (lines : List LineData) (pid : Int) :
    qtyOfItems (saleItemsOf sid lines) pid = linesQty lines pid := by
  simp [qtyOfItems, saleItemsOf, linesQty, List.map_map]
  rfl

/-! ### Claims -/

/-- C1: the claim says no `Inventory.quantity` ever becomes negative, in
particular under a single successful commit whose lines repeat a product.
The code violates this: each line's stock check reads the still-unmodified
inventory, and all deductions happen afterwards.  Starting from a
non-negative state (product 1, stock 5), a `create_sale` whose two lines
each request 3 units of product 1 commits successfully and leaves the
inventory at -1. -/
theorem c1_duplicate_lines_drive_stock_negative :
    (create_sale
        { products := [⟨1, "A", 2⟩], inventories := [⟨1, 5, 0⟩], sales := [],
          sale_items := [], sync_queue := [], next_sale_id := 1 }
        7 ⟨[⟨1, 3⟩, ⟨1, 3⟩]⟩).toOption.map
      (fun r => r.1.inventories.map (fun inv => inv.quantity)) = some [-1] := by
  decide

/-- C2: atomicity of a sale commit — whenever `create_sale` (or `pos_sale`)
returns an error, the observable state equals the state before the call:
no inventory quantity changes and no `Sale`/`SaleItem` row is persisted.
An empty item list in particular is rejected with `EmptySale`. -/
theorem c2_failed_commit_changes_nothing (db : DBState) (now : Nat)
    (req : SaleCreate) :
    (∀ e, (create_sale_endpoint db now req).2 = some e →
      (create_sale_endpoint db now req).1 = db) ∧
    (∀ e, (pos_sale_endpoint db now req).2 = some e →
      (pos_sale_endpoint db now req).1 = db) ∧
    (req.items = [] →
      (create_sale_endpoint db now req).2 = some SaleError.emptySale) := by
  refine ⟨?_, ?_, ?_⟩
  · intro e he
    cases h : create_sale db now req with
    | ok r => simp [create_sale_endpoint, h] at he
    | error e2 => simp [create_sale_endpoint, h]
  · intro e he
    cases h : pos_sale db now req with
    | ok r => simp [pos_sale_endpoint, h] at he
    | error e2 => simp [pos_sale_endpoint, h]
  · intro hempty
    simp [create_sale_endpoint, create_sale, hempty]

/-- C2 witness: a concrete failing call (empty item list) is rejected with
`EmptySale` and leaves the concrete state untouched. -/
theorem c2_failed_commit_changes_nothing_witness :
    (create_sale_endpoint ⟨[], [], [], [], [], 1⟩ 0 ⟨[]⟩).2 =
      some SaleError.emptySale ∧
    (create_sale_endpoint ⟨[], [], [], [], [], 1⟩ 0 ⟨[]⟩).1 =
      ⟨[], [], [], [], [], 1⟩ :=
  ⟨(c2_failed_commit_changes_nothing ⟨[], [], [], [], [], 1⟩ 0 ⟨[]⟩).2.2 rfl,
   (c2_failed_commit_changes_nothing ⟨[], [], [], [], [], 1⟩ 0 ⟨[]⟩).1
     SaleError.emptySale
     ((c2_failed_commit_changes_nothing ⟨[], [], [], [], [], 1⟩ 0 ⟨[]⟩).2.2 rfl)⟩

/-- C7: total correctness — every successfully committed sale, live or
replayed, persists items with `subtotal = unit_price * quantity` where
`unit_price` is the catalog price of the product at commit time, and a
`Sale` row whose `total_amount` is the sum of its items' subtotals. -/
theorem c7_total_correctness :
    (∀ (db db' : DBState) (now sid : Nat) (req : SaleCreate),
      create_sale db now req = .ok (db', sid) →
      ∃ sale newItems,
        db'.sales = db.sales ++ [sale] ∧
        db'.sale_items = db.sale_items ++ newItems ∧
        sale.total_amount = (newItems.map (fun it => it.subtotal)).sum ∧
        ∀ it ∈ newItems,
          it.subtotal = it.unit_price * it.quantity ∧
          ∃ product, findProduct db it.product_id = some product ∧
            it.unit_price = product.price) ∧
    (∀ (db db' : DBState) (now : Nat) (entry entry' : SyncQueueRow),
      process_sale_sync db now entry = .ok (db', entry') →
      ∃ sale newItems,
        db'.sales = db.sales ++ [sale] ∧
        db'.sale_items = db.sale_items ++ newItems ∧
        sale.total_amount = (newItems.map (fun it => it.subtotal)).sum ∧
        ∀ it ∈ newItems,
          it.subtotal = it.unit_price * it.quantity ∧
          ∃ product, findProduct db it.product_id = some product ∧
            it.unit_price = product.price) := by
  constructor
  · intro db db' now sid req h
    obtain ⟨hsid, hne, lines, hval, hsales, hitems, hinv, _, _, _⟩ := create_sale_ok h
    refine ⟨⟨db.next_sale_id, now, totalOf lines, .completed, .synced⟩,
      saleItemsOf db.next_sale_id lines, hsales, hitems, ?_, ?_⟩
    · show totalOf lines = _
      rw [totalOf_eq_sum, saleItemsOf_map_subtotal]
    · intro it hit
      obtain ⟨l, hl, hit_eq⟩ := List.mem_map.mp hit
      obtain ⟨item, hitem, hpid, hqty, hsub, product, hp, hup⟩ :=
        validateItems_line_mem hval l hl
      subst hit_eq
      exact ⟨hsub, product, hp, hup⟩
  · intro db db' now entry entry' h
    obtain ⟨payload, lines, hpay, hne, hval, hit', hsales, hitems, hinv, _, _, _⟩ :=
      process_sale_sync_ok h
    refine ⟨_, saleItemsOf db.next_sale_id lines, hsales, hitems, ?_, ?_⟩
    · show totalOf lines = _
      rw [totalOf_eq_sum, saleItemsOf_map_subtotal]
    · intro it hit
      obtain ⟨l, hl, hit_eq⟩ := List.mem_map.mp hit
      obtain ⟨hq0, hsub, product, hp, hup⟩ := validateSyncItems_line_mem hval l hl
      subst hit_eq
      exact ⟨hsub, product, hp, hup⟩

/-- C7 witness: the property at a concrete committed sale (one line, 2
units of product 1 at price 2: subtotal 4, total 4). -/
theorem c7_total_correctness_witness :
    create_sale
        { products := [⟨1, "A", 2⟩], inventories := [⟨1, 5, 0⟩], sales := [],
          sale_items := [], sync_queue := [], next_sale_id := 1 }
        7 ⟨[⟨1, 2⟩]⟩ =
      .ok ({ products := [⟨1, "A", 2⟩], inventories := [⟨1, 3, 0⟩],
             sales := [⟨1, 7, 4, .completed, .synced⟩],
             sale_items := [⟨1, 1, 2, 2, 4⟩], sync_queue := [],
             next_sale_id := 2 }, 1) ∧
    (∃ sale newItems,
      ({ products := [⟨1, "A", 2⟩], inventories := [⟨1, 3, 0⟩],
         sales := [⟨1, 7, 4, .completed, .synced⟩],
         sale_items := [⟨1, 1, 2, 2, 4⟩], sync_queue := [],
         next_sale_id := 2 } : DBState).sales =
        ({ products := [⟨1, "A", 2⟩], inventories := [⟨1, 5, 0⟩], sales := [],
           sale_items := [], sync_queue := [], next_sale_id := 1 } : DBState).sales
          ++ [sale] ∧
      ({ products := [⟨1, "A", 2⟩], inventories := [⟨1, 3, 0⟩],
         sales := [⟨1, 7, 4, .completed, .synced⟩],
         sale_items := [⟨1, 1, 2, 2, 4⟩], sync_queue := [],
         next_sale_id := 2 } : DBState).sale_items =
        ({ products := [⟨1, "A", 2⟩], inventories := [⟨1, 5, 0⟩], sales := [],
           sale_items := [], sync_queue := [], next_sale_id := 1 } : DBState).sale_items
          ++ newItems ∧
      sale.total_amount = (newItems.map (fun it => it.subtotal)).sum ∧
      ∀ it ∈ newItems,
        it.subtotal = it.unit_price * (it.quantity : Rat) ∧
        ∃ product,
          findProduct
            { products := [⟨1, "A", 2⟩], inventories := [⟨1, 5, 0⟩], sales := [],
              sale_items := [], sync_queue := [], next_sale_id := 1 }
            it.product_id = some product ∧
          it.unit_price = product.price) := by
  have h : create_sale
      { products := [⟨1, "A", 2⟩], inventories := [⟨1, 5, 0⟩], sales := [],
        sale_items := [], sync_queue := [], next_sale_id := 1 }
      7 ⟨[⟨1, 2⟩]⟩ =
    .ok ({ products := [⟨1, "A", 2⟩], inventories := [⟨1, 3, 0⟩],
           sales := [⟨1, 7, 4, .completed, .synced⟩],
           sale_items := [⟨1, 1, 2, 2, 4⟩], sync_queue := [],
           next_sale_id := 2 }, 1) := by
    simp [create_sale, validateItems, findProduct, findInventory, applyLines,
      deductInv, totalOf]
    norm_num
  exact ⟨h, c7_total_correctness.1 _ _ 7 1 ⟨[⟨1, 2⟩]⟩ h⟩

/-- C8 counterexample: the claim says every persisted `SaleItem` has
`quantity > 0`.  Replay rejects only falsy (absent/null/zero) fields, so a
queued payload line with `quantity = -1` passes every check (stock check
`5 < -1` is false), the entry syncs, and a `SaleItem` with quantity `-1` —
not `> 0` — is persisted (the deduction even adds stock back). -/
theorem c8_negative_quantity_persisted :
    ((process_sync_queue
        { products := [⟨1, "A", 2⟩], inventories := [⟨1, 5, 0⟩], sales := [],
          sale_items := [],
          sync_queue := [⟨1, "sale", some ⟨[⟨some 1, some (-1)⟩], none⟩,
            .pending, 10, none, none⟩],
          next_sale_id := 1 }
        99).1.sale_items.map (fun it => it.quantity)) = [-1] ∧
    ¬ (0 : Int) < -1 := by
  constructor
  · decide
  · decide

/-- C8 amended: every `SaleItem` persisted by the live endpoints (whose
requests pass the pydantic `gt=0` validation) has `quantity > 0`; a
`SaleItem` persisted by sync-queue replay only has `quantity ≠ 0` — the
falsiness check rejects zero but not negatives. -/
theorem c8_sale_item_quantity :
    (∀ (db db' : DBState) (now sid : Nat) (req : SaleCreate),
      saleCreateValid req →
      create_sale db now req = .ok (db', sid) →
      ∀ it ∈ db'.sale_items, it ∈ db.sale_items ∨ 0 < it.quantity) ∧
    (∀ (db db' : DBState) (now : Nat) (entry entry' : SyncQueueRow),
      process_sale_sync db now entry = .ok (db', entry') →
      ∀ it ∈ db'.sale_items, it ∈ db.sale_items ∨ it.quantity ≠ 0) := by
  constructor
  · intro db db' now sid req hvalid h it hit
    obtain ⟨hsid, hne, lines, hval, hsales, hitems, _, _, _, _⟩ := create_sale_ok h
    rw [hitems] at hit
    rcases List.mem_append.mp hit with hold | hnew
    · exact .inl hold
    · obtain ⟨l, hl, hit_eq⟩ := List.mem_map.mp hnew
      obtain ⟨item, hitem, hpid, hqty, _, _, _, _⟩ := validateItems_line_mem hval l hl
      subst hit_eq
      exact .inr (hqty ▸ hvalid.2 item hitem)
  · intro db db' now entry entry' h it hit
    obtain ⟨payload, lines, _, _, hval, _, _, hitems, _, _, _, _⟩ :=
      process_sale_sync_ok h
    rw [hitems] at hit
    rcases List.mem_append.mp hit with hold | hnew
    · exact .inl hold
    · obtain ⟨l, hl, hit_eq⟩ := List.mem_map.mp hnew
      obtain ⟨hq0, _, _⟩ := validateSyncItems_line_mem hval l hl
      subst hit_eq
      exact .inr hq0

/-- C8 amended witness: the live half at a concrete valid request (one line
of 2 units): the only persisted item has positive quantity. -/
theorem c8_sale_item_quantity_witness :
    saleCreateValid ⟨[⟨1, 2⟩]⟩ ∧
    ∀ it ∈ ({ products := [⟨1, "A", 2⟩], inventories := [⟨1, 3, 0⟩],
              sales := [⟨1, 7, 4, .completed, .synced⟩],
              sale_items := [⟨1, 1, 2, 2, 4⟩], sync_queue := [],
              next_sale_id := 2 } : DBState).sale_items,
      it ∈ ({ products := [⟨1, "A", 2⟩], inventories := [⟨1, 5, 0⟩],
              sales := [], sale_items := [], sync_queue := [],
              next_sale_id := 1 } : DBState).sale_items ∨ 0 < it.quantity := by
  have hvalid : saleCreateValid ⟨[⟨1, 2⟩]⟩ := by
    constructor
    · simp
    · intro it hit
      simp at hit
      subst hit
      show (0 : Int) < 2
      decide
  refine ⟨hvalid, ?_⟩
  exact c8_sale_item_quantity.1
    { products := [⟨1, "A", 2⟩], inventories := [⟨1, 5, 0⟩], sales := [],
      sale_items := [], sync_queue := [], next_sale_id := 1 }
    _ 7 1 ⟨[⟨1, 2⟩]⟩ hvalid
    (by simp [create_sale, validateItems, findProduct, findInventory, applyLines,
          deductInv, totalOf]
        norm_num)

/-- The sync validation loop fails on the first bad line: a prefix that
validates cleanly cannot mask a later error. -/
theorem validateSyncItems_append_error {db : DBState} :
    ∀ {pre : List PayloadItem} {ls : List LineData} {rest : List PayloadItem}
      {e : String},
      validateSyncItems db pre = .ok ls →
      validateSyncItems db rest = .error e →
      validateSyncItems db (pre ++ rest) = .error e := by
  intro pre
  induction pre with
  | nil => intro ls rest e _ hrest; simpa using hrest
  | cons item pre ih =>
    intro ls rest e hok hrest
    cases hf : (pyFalsy item.product_id || pyFalsy item.quantity) with
    | true => simp [validateSyncItems, hf] at hok
    | false =>
      cases hp : findProduct db (item.product_id.getD 0) with
      | none => simp [validateSyncItems, hf, hp] at hok
      | some product =>
        cases hi : findInventory db (item.product_id.getD 0) with
        | none => simp [validateSyncItems, hf, hp, hi] at hok
        | some inventory =>
          by_cases hq : inventory.quantity < item.quantity.getD 0
          · simp [validateSyncItems, hf, hp, hi, hq] at hok
          · cases hv : validateSyncItems db pre with
            | error e2 => simp [validateSyncItems, hf, hp, hi, hq, hv] at hok
            | ok ls2 =>
              show validateSyncItems db (item :: (pre ++ rest)) = .error e
              simp only [validateSyncItems, hf, Bool.false_eq_true, if_false, hp, hi,
                if_neg hq, ih hv hrest]

/-- C10: under the replay falsiness check, a payload line whose
`product_id` or `quantity` is absent, null, or zero — and only reached
after clean earlier lines — fails the entry with exactly
"Invalid sale item format", leaving the database untouched (no sale, no
stock change); zero is indistinguishable from a missing field, and the
check does not reject negative values. -/
theorem c10_zero_as_missing :
    (∀ x : Option Int, pyFalsy x = true ↔ x = none ∨ x = some 0) ∧
    (∀ q : Int, q < 0 → pyFalsy (some q) = false) ∧
    (∀ (db : DBState) (now : Nat) (entry : SyncQueueRow) (payload : SalePayload)
        (pre : List PayloadItem) (bad : PayloadItem) (post : List PayloadItem)
        (ls : List LineData),
      entry.transaction_type = "sale" →
      entry.payload = some payload →
      payload.items = pre ++ bad :: post →
      validateSyncItems db pre = .ok ls →
      (pyFalsy bad.product_id || pyFalsy bad.quantity) = true →
      processEntry db now entry =
        (db,
         { entry with
           status := SyncStatus.failed,
           error_message := some "Invalid sale item format" },
         false)) := by
  refine ⟨?_, ?_, ?_⟩
  · intro x
    cases x with
    | none => simp [pyFalsy]
    | some v => simp [pyFalsy]
  · intro q hq
    simp [pyFalsy]
    omega
  · intro db now entry payload pre bad post ls htype hpay hitems hok hf
    have hbad : validateSyncItems db (bad :: post) = .error "Invalid sale item format" := by
      simp [validateSyncItems, hf]
    have hval : validateSyncItems db payload.items = .error "Invalid sale item format" := by
      rw [hitems]
      exact validateSyncItems_append_error hok hbad
    have hne : payload.items ≠ [] := by
      rw [hitems]
      simp
    have hps : process_sale_sync db now entry = .error "Invalid sale item format" := by
      simp [process_sale_sync, hpay, hne, hval]
    simp [processEntry, htype, hps]

/-- C10 witness: a concrete entry whose single payload line has
`quantity = 0` is marked FAILED with "Invalid sale item format" and the
state is unchanged. -/
theorem c10_zero_as_missing_witness :
    processEntry
        { products := [⟨1, "A", 2⟩], inventories := [⟨1, 5, 0⟩], sales := [],
          sale_items := [], sync_queue := [], next_sale_id := 1 }
        99 ⟨1, "sale", some ⟨[⟨some 1, some 0⟩], none⟩, .pending, 10, none, none⟩ =
      ({ products := [⟨1, "A", 2⟩], inventories := [⟨1, 5, 0⟩], sales := [],
         sale_items := [], sync_queue := [], next_sale_id := 1 },
       ⟨1, "sale", some ⟨[⟨some 1, some 0⟩], none⟩, .failed, 10, none,
        some "Invalid sale item format"⟩,
       false) :=
  c10_zero_as_missing.2.2
    { products := [⟨1, "A", 2⟩], inventories := [⟨1, 5, 0⟩], sales := [],
      sale_items := [], sync_queue := [], next_sale_id := 1 }
    99 ⟨1, "sale", some ⟨[⟨some 1, some 0⟩], none⟩, .pending, 10, none, none⟩
    ⟨[⟨some 1, some 0⟩], none⟩ [] ⟨some 1, some 0⟩ [] []
    rfl rfl rfl rfl (by decide)

/-- C5: SYNCED is terminal — a SYNCED entry is never selected into the
pending snapshot and survives any replay run unchanged; a queue containing
only SYNCED entries makes `process_sync_queue` return the no-pending
message and change nothing at all. -/
theorem c5_synced_is_terminal (db : DBState) (now : Nat) :
    ((∀ e ∈ db.sync_queue, e.status = SyncStatus.synced) →
      process_sync_queue db now = (db, "No pending items to sync")) ∧
    ((db.sync_queue.map (fun e => e.id)).Nodup →
      ∀ e ∈ db.sync_queue, e.status = SyncStatus.synced →
        e ∉ pendingSorted db ∧ e ∈ (process_sync_queue db now).1.sync_queue) := by
  constructor
  · intro hall
    apply process_sync_queue_empty
    have hfil : db.sync_queue.filter
        (fun e => decide (e.status = SyncStatus.pending)) = [] := by
      rw [List.filter_eq_nil_iff]
      intro e he
      simp [hall e he]
    simp [pendingSorted, orderByCreatedAt, hfil]
  · intro hnodup e he hsynced
    have hnotpending : e ∉ pendingSorted db := by
      rw [mem_pendingSorted]
      rintro ⟨_, hp⟩
      rw [hsynced] at hp
      exact absurd hp (by decide)
    refine ⟨hnotpending, ?_⟩
    by_cases hps : pendingSorted db = []
    · rw [process_sync_queue_empty hps]
      exact he
    · rw [process_sync_queue_eq hps]
      obtain ⟨hq, hf2, _, _⟩ := processLoop_spec now (pendingSorted db) db
      show e ∈ updateEntries (processLoop db now (pendingSorted db)).1.sync_queue _
      rw [hq]
      apply mem_updateEntries_self he
      intro u hu hid
      obtain ⟨ep, hep, hepid, _⟩ := forall₂_mem_right hf2 u hu
      have hepq := mem_pendingSorted.mp hep
      have hee : ep = e :=
        List.inj_on_of_nodup_map hnodup hepq.1 he (by rw [← hepid]; exact hid)
      rw [hee, hsynced] at hepq
      exact absurd hepq.2 (by decide)

/-- C5 witness: a queue holding a single SYNCED entry: replay selects
nothing, reports no pending items, and the entry is untouched. -/
theorem c5_synced_is_terminal_witness :
    process_sync_queue
        { products := [], inventories := [], sales := [], sale_items := [],
          sync_queue := [⟨1, "sale", none, .synced, 10, some 11, none⟩],
          next_sale_id := 1 }
        99 =
      ({ products := [], inventories := [], sales := [], sale_items := [],
         sync_queue := [⟨1, "sale", none, .synced, 10, some 11, none⟩],
         next_sale_id := 1 }, "No pending items to sync") ∧
    (⟨1, "sale", none, .synced, 10, some 11, none⟩ : SyncQueueRow) ∉
      pendingSorted
        { products := [], inventories := [], sales := [], sale_items := [],
          sync_queue := [⟨1, "sale", none, .synced, 10, some 11, none⟩],
          next_sale_id := 1 } ∧
    (⟨1, "sale", none, .synced, 10, some 11, none⟩ : SyncQueueRow) ∈
      (process_sync_queue
        { products := [], inventories := [], sales := [], sale_items := [],
          sync_queue := [⟨1, "sale", none, .synced, 10, some 11, none⟩],
          next_sale_id := 1 } 99).1.sync_queue := by
  refine ⟨?_, ?_⟩
  · exact (c5_synced_is_terminal _ 99).1 (by decide)
  · exact (c5_synced_is_terminal _ 99).2 (by decide) _ (by decide) rfl

/-- C3: replay failure isolation — with a non-empty pending snapshot,
every pending entry is attempted (each gets exactly one written-back
entry, in order, with its id), every attempted entry ends SYNCED (stamped)
or FAILED with a non-empty error message, and the returned message reports
processed = number of entries that ended SYNCED and failed = number that
ended FAILED. -/
theorem c3_replay_isolation (db : DBState) (now : Nat)
    (h : pendingSorted db ≠ []) :
    (process_sync_queue db now).2 =
      syncCompleteMsg (processLoop db now (pendingSorted db)).2.2.1
        (processLoop db now (pendingSorted db)).2.2.2 ∧
    List.Forall₂ (fun e u => u.id = e.id ∧
        ((u.status = SyncStatus.synced ∧ u.synced_at = some now) ∨
         (u.status = SyncStatus.failed ∧ ∃ m, u.error_message = some m ∧ m ≠ "")))
      (pendingSorted db) (processLoop db now (pendingSorted db)).2.1 ∧
    (processLoop db now (pendingSorted db)).2.2.1 =
      ((processLoop db now (pendingSorted db)).2.1.filter
        (fun u => decide (u.status = SyncStatus.synced))).length ∧
    (processLoop db now (pendingSorted db)).2.2.2 =
      ((processLoop db now (pendingSorted db)).2.1.filter
        (fun u => decide (u.status = SyncStatus.failed))).length := by
  obtain ⟨hq, hf2, hp, hf⟩ := processLoop_spec now (pendingSorted db) db
  rw [process_sync_queue_eq h]
  exact ⟨rfl, hf2, hp, hf⟩

/-- C3 witness: the spec's own example, five pending sale entries over a
stock of 10 where only entry 3 (requesting 100) lacks stock: entries
1,2,4,5 end SYNCED, entry 3 ends FAILED, and the reply reports
"Processed: 4, Failed: 1". -/
theorem c3_replay_isolation_witness :
    pendingSorted
        { products := [⟨1, "A", 2⟩], inventories := [⟨1, 10, 0⟩], sales := [],
          sale_items := [],
          sync_queue :=
            [⟨1, "sale", some ⟨[⟨some 1, some 2⟩], none⟩, .pending, 10, none, none⟩,
             ⟨2, "sale", some ⟨[⟨some 1, some 2⟩], none⟩, .pending, 20, none, none⟩,
             ⟨3, "sale", some ⟨[⟨some 1, some 100⟩], none⟩, .pending, 30, none, none⟩,
             ⟨4, "sale", some ⟨[⟨some 1, some 3⟩], none⟩, .pending, 40, none, none⟩,
             ⟨5, "sale", some ⟨[⟨some 1, some 3⟩], none⟩, .pending, 50, none, none⟩],
          next_sale_id := 1 } ≠ [] ∧
    (process_sync_queue
        { products := [⟨1, "A", 2⟩], inventories := [⟨1, 10, 0⟩], sales := [],
          sale_items := [],
          sync_queue :=
            [⟨1, "sale", some ⟨[⟨some 1, some 2⟩], none⟩, .pending, 10, none, none⟩,
             ⟨2, "sale", some ⟨[⟨some 1, some 2⟩], none⟩, .pending, 20, none, none⟩,
             ⟨3, "sale", some ⟨[⟨some 1, some 100⟩], none⟩, .pending, 30, none, none⟩,
             ⟨4, "sale", some ⟨[⟨some 1, some 3⟩], none⟩, .pending, 40, none, none⟩,
             ⟨5, "sale", some ⟨[⟨some 1, some 3⟩], none⟩, .pending, 50, none, none⟩],
          next_sale_id := 1 }
        99).2 =
      syncCompleteMsg
        (processLoop
          { products := [⟨1, "A", 2⟩], inventories := [⟨1, 10, 0⟩], sales := [],
            sale_items := [],
            sync_queue :=
              [⟨1, "sale", some ⟨[⟨some 1, some 2⟩], none⟩, .pending, 10, none, none⟩,
               ⟨2, "sale", some ⟨[⟨some 1, some 2⟩], none⟩, .pending, 20, none, none⟩,
               ⟨3, "sale", some ⟨[⟨some 1, some 100⟩], none⟩, .pending, 30, none, none⟩,
               ⟨4, "sale", some ⟨[⟨some 1, some 3⟩], none⟩, .pending, 40, none, none⟩,
               ⟨5, "sale", some ⟨[⟨some 1, some 3⟩], none⟩, .pending, 50, none, none⟩],
            next_sale_id := 1 }
          99
          (pendingSorted
            { products := [⟨1, "A", 2⟩], inventories := [⟨1, 10, 0⟩], sales := [],
              sale_items := [],
              sync_queue :=
                [⟨1, "sale", some ⟨[⟨some 1, some 2⟩], none⟩, .pending, 10, none, none⟩,
                 ⟨2, "sale", some ⟨[⟨some 1, some 2⟩], none⟩, .pending, 20, none, none⟩,
                 ⟨3, "sale", some ⟨[⟨some 1, some 100⟩], none⟩, .pending, 30, none, none⟩,
                 ⟨4, "sale", some ⟨[⟨some 1, some 3⟩], none⟩, .pending, 40, none, none⟩,
                 ⟨5, "sale", some ⟨[⟨some 1, some 3⟩], none⟩, .pending, 50, none, none⟩],
              next_sale_id := 1 })).2.2.1
        (processLoop
          { products := [⟨1, "A", 2⟩], inventories := [⟨1, 10, 0⟩], sales := [],
            sale_items := [],
            sync_queue :=
              [⟨1, "sale", some ⟨[⟨some 1, some 2⟩], none⟩, .pending, 10, none, none⟩,
               ⟨2, "sale", some ⟨[⟨some 1, some 2⟩], none⟩, .pending, 20, none, none⟩,
               ⟨3, "sale", some ⟨[⟨some 1, some 100⟩], none⟩, .pending, 30, none, none⟩,
               ⟨4, "sale", some ⟨[⟨some 1, some 3⟩], none⟩, .pending, 40, none, none⟩,
               ⟨5, "sale", some ⟨[⟨some 1, some 3⟩], none⟩, .pending, 50, none, none⟩],
            next_sale_id := 1 }
          99
          (pendingSorted
            { products := [⟨1, "A", 2⟩], inventories := [⟨1, 10, 0⟩], sales := [],
              sale_items := [],
              sync_queue :=
                [⟨1, "sale", some ⟨[⟨some 1, some 2⟩], none⟩, .pending, 10, none, none⟩,
                 ⟨2, "sale", some ⟨[⟨some 1, some 2⟩], none⟩, .pending, 20, none, none⟩,
                 ⟨3, "sale", some ⟨[⟨some 1, some 100⟩], none⟩, .pending, 30, none, none⟩,
                 ⟨4, "sale", some ⟨[⟨some 1, some 3⟩], none⟩, .pending, 40, none, none⟩,
                 ⟨5, "sale", some ⟨[⟨some 1, some 3⟩], none⟩, .pending, 50, none, none⟩],
              next_sale_id := 1 })).2.2.2 ∧
    (process_sync_queue
        { products := [⟨1, "A", 2⟩], inventories := [⟨1, 10, 0⟩], sales := [],
          sale_items := [],
          sync_queue :=
            [⟨1, "sale", some ⟨[⟨some 1, some 2⟩], none⟩, .pending, 10, none, none⟩,
             ⟨2, "sale", some ⟨[⟨some 1, some 2⟩], none⟩, .pending, 20, none, none⟩,
             ⟨3, "sale", some ⟨[⟨some 1, some 100⟩], none⟩, .pending, 30, none, none⟩,
             ⟨4, "sale", some ⟨[⟨some 1, some 3⟩], none⟩, .pending, 40, none, none⟩,
             ⟨5, "sale", some ⟨[⟨some 1, some 3⟩], none⟩, .pending, 50, none, none⟩],
          next_sale_id := 1 }
        99).2 = syncCompleteMsg 4 1 ∧
    (process_sync_queue
        { products := [⟨1, "A", 2⟩], inventories := [⟨1, 10, 0⟩], sales := [],
          sale_items := [],
          sync_queue :=
            [⟨1, "sale", some ⟨[⟨some 1, some 2⟩], none⟩, .pending, 10, none, none⟩,
             ⟨2, "sale", some ⟨[⟨some 1, some 2⟩], none⟩, .pending, 20, none, none⟩,
             ⟨3, "sale", some ⟨[⟨some 1, some 100⟩], none⟩, .pending, 30, none, none⟩,
             ⟨4, "sale", some ⟨[⟨some 1, some 3⟩], none⟩, .pending, 40, none, none⟩,
             ⟨5, "sale", some ⟨[⟨some 1, some 3⟩], none⟩, .pending, 50, none, none⟩],
          next_sale_id := 1 }
        99).1.sync_queue.map (fun e => e.status) =
      [.synced, .synced, .failed, .synced, .synced] := by
  refine ⟨by decide, (c3_replay_isolation _ 99 (by decide)).1, by decide, by decide⟩

/-- C6 counterexample: the claim asserts a link from a successfully
replayed entry to the SaleTransaction it created.  The `SyncQueue` row has
no sale reference at all: two runs of the same entry against states that
create different sales (ids 1 and 5) write back byte-identical entries, so
the entry determines no link to "its" sale. -/
theorem c6_no_link_to_sale :
    (process_sale_sync
        { products := [⟨1, "A", 2⟩], inventories := [⟨1, 5, 0⟩], sales := [],
          sale_items := [], sync_queue := [], next_sale_id := 1 }
        99 ⟨7, "sale", some ⟨[⟨some 1, some 2⟩], none⟩, .pending, 10, none,
            none⟩).toOption.map (fun r => r.2) =
      some ⟨7, "sale", some ⟨[⟨some 1, some 2⟩], none⟩, .synced, 10, some 99,
            none⟩ ∧
    (process_sale_sync
        { products := [⟨1, "A", 2⟩], inventories := [⟨1, 5, 0⟩], sales := [],
          sale_items := [], sync_queue := [], next_sale_id := 5 }
        99 ⟨7, "sale", some ⟨[⟨some 1, some 2⟩], none⟩, .pending, 10, none,
            none⟩).toOption.map (fun r => r.2) =
      some ⟨7, "sale", some ⟨[⟨some 1, some 2⟩], none⟩, .synced, 10, some 99,
            none⟩ ∧
    (process_sale_sync
        { products := [⟨1, "A", 2⟩], inventories := [⟨1, 5, 0⟩], sales := [],
          sale_items := [], sync_queue := [], next_sale_id := 1 }
        99 ⟨7, "sale", some ⟨[⟨some 1, some 2⟩], none⟩, .pending, 10, none,
            none⟩).toOption.map (fun r => r.1.sales.map (fun s => s.id)) =
      some [1] ∧
    (process_sale_sync
        { products := [⟨1, "A", 2⟩], inventories := [⟨1, 5, 0⟩], sales := [],
          sale_items := [], sync_queue := [], next_sale_id := 5 }
        99 ⟨7, "sale", some ⟨[⟨some 1, some 2⟩], none⟩, .pending, 10, none,
            none⟩).toOption.map (fun r => r.1.sales.map (fun s => s.id)) =
      some [5] := by
  exact ⟨by decide, by decide, by decide, by decide⟩

/-- C6 amended: a successfully replayed sale entry ends with status SYNCED
and a non-null `synced_at` timestamp, and a new Sale row was appended —
but no link from the entry to that Sale is recorded (the SyncQueue row has
no sale reference column). -/
theorem c6_success_marks_synced (db db' : DBState) (now : Nat)
    (entry entry' : SyncQueueRow)
    (h : process_sale_sync db now entry = .ok (db', entry')) :
    entry'.status = SyncStatus.synced ∧
    entry'.synced_at = some now ∧
    entry'.synced_at ≠ none ∧
    (∃ sale, db'.sales = db.sales ++ [sale]) := by
  obtain ⟨payload, lines, _, _, _, hit, hsales, _, _, _, _, _⟩ :=
    process_sale_sync_ok h
  subst hit
  exact ⟨rfl, rfl, by simp, ⟨_, hsales⟩⟩

/-- C6 amended witness: the postcondition at a concrete successful
replay. -/
theorem c6_success_marks_synced_witness :
    (⟨7, "sale", some ⟨[⟨some 1, some 2⟩], none⟩, .synced, 10, some 99,
      none⟩ : SyncQueueRow).status = SyncStatus.synced ∧
    (⟨7, "sale", some ⟨[⟨some 1, some 2⟩], none⟩, .synced, 10, some 99,
      none⟩ : SyncQueueRow).synced_at = some 99 ∧
    (⟨7, "sale", some ⟨[⟨some 1, some 2⟩], none⟩, .synced, 10, some 99,
      none⟩ : SyncQueueRow).synced_at ≠ none ∧
    (∃ sale,
      ({ products := [⟨1, "A", 2⟩], inventories := [⟨1, 3, 0⟩],
         sales := [⟨1, 99, 4, .completed, .synced⟩],
         sale_items := [⟨1, 1, 2, 2, 4⟩], sync_queue := [],
         next_sale_id := 2 } : DBState).sales =
        ({ products := [⟨1, "A", 2⟩], inventories := [⟨1, 5, 0⟩], sales := [],
           sale_items := [], sync_queue := [],
           next_sale_id := 1 } : DBState).sales ++ [sale]) :=
  c6_success_marks_synced
    { products := [⟨1, "A", 2⟩], inventories := [⟨1, 5, 0⟩], sales := [],
      sale_items := [], sync_queue := [], next_sale_id := 1 }
    { products := [⟨1, "A", 2⟩], inventories := [⟨1, 3, 0⟩],
      sales := [⟨1, 99, 4, .completed, .synced⟩],
      sale_items := [⟨1, 1, 2, 2, 4⟩], sync_queue := [], next_sale_id := 2 }
    99
    ⟨7, "sale", some ⟨[⟨some 1, some 2⟩], none⟩, .pending, 10, none, none⟩
    ⟨7, "sale", some ⟨[⟨some 1, some 2⟩], none⟩, .synced, 10, some 99, none⟩
    (by simp [process_sale_sync, validateSyncItems, pyFalsy, findProduct,
          findInventory, applyLines, deductInv, totalOf]
        norm_num)

/-- C9: reversal — for an existing sale, `delete_sale` with
`restore_inventory=true` adds each sale line's quantity back to its
product's inventory row and removes the Sale and its SaleItems, so that
deleting a freshly committed sale returns every inventory quantity (and
the sale tables) to their pre-sale values; with `restore_inventory=false`
it removes the Sale and its SaleItems and leaves every inventory row
unchanged. -/
theorem c9_delete_sale_reversal :
    (∀ (db : DBState) (sid : Nat) (sale : SaleRow),
      db.sales.find? (fun s => s.id == sid) = some sale →
      delete_sale db sid true = .ok
        { db with
          inventories := db.inventories.map (fun inv =>
            { inv with quantity := inv.quantity + qtyOfItems (db.sale_items.filter (fun it => it.sale_id == sid)) inv.product_id }),
          sales := db.sales.filter (fun s => !(s.id == sid)),
          sale_items := db.sale_items.filter (fun it => !(it.sale_id == sid)) }) ∧
    (∀ (db : DBState) (sid : Nat) (sale : SaleRow),
      db.sales.find? (fun s => s.id == sid) = some sale →
      delete_sale db sid false = .ok
        { db with
          sales := db.sales.filter (fun s => !(s.id == sid)),
          sale_items := db.sale_items.filter (fun it => !(it.sale_id == sid)) }) ∧
    (∀ (db db1 db2 : DBState) (now sid : Nat) (req : SaleCreate),
      (∀ s ∈ db.sales, s.id ≠ db.next_sale_id) →
      (∀ it ∈ db.sale_items, it.sale_id ≠ db.next_sale_id) →
      create_sale db now req = .ok (db1, sid) →
      delete_sale db1 sid true = .ok db2 →
      db2.inventories = db.inventories ∧ db2.sales = db.sales ∧
        db2.sale_items = db.sale_items) := by
  refine ⟨?_, ?_, ?_⟩
  · intro db sid sale hfind
    simp only [delete_sale, hfind]
    rw [restore_foldl]
    simp
  · intro db sid sale hfind
    simp only [delete_sale, hfind]
    simp
  · intro db db1 db2 now sid req hfreshS hfreshI hc hd
    obtain ⟨hsid, hne, lines, hval, hsales1, hitems1, hinv1, hprod1, hq1, hnid1⟩ :=
      create_sale_ok hc
    subst hsid
    cases hfind : db1.sales.find? (fun s => s.id == db.next_sale_id) with
    | none => simp [delete_sale, hfind] at hd
    | some sale =>
      simp only [delete_sale, hfind, Except.ok.injEq] at hd
      rw [restore_foldl] at hd
      have hfil : db1.sale_items.filter (fun it => it.sale_id == db.next_sale_id) =
          saleItemsOf db.next_sale_id lines := by
        rw [hitems1, List.filter_append]
        have h1 : db.sale_items.filter (fun it => it.sale_id == db.next_sale_id) = [] := by
          rw [List.filter_eq_nil_iff]
          intro it hit
          simp [hfreshI it hit]
        have h2 : (saleItemsOf db.next_sale_id lines).filter
            (fun it => it.sale_id == db.next_sale_id) =
            saleItemsOf db.next_sale_id lines := by
          rw [List.filter_eq_self]
          intro it hit
          obtain ⟨l, hl, he⟩ := List.mem_map.mp hit
          subst he
          simp
        rw [h1, h2, List.nil_append]
      subst hd
      refine ⟨?_, ?_, ?_⟩
      · show db1.inventories.map _ = db.inventories
        rw [hfil, hinv1, List.map_map]
        conv_rhs => rw [← List.map_id db.inventories]
        apply List.map_congr_left
        intro inv _
        simp only [Function.comp, qtyOfItems_saleItemsOf, id]
        cases inv
        simp
      · show db1.sales.filter _ = db.sales
        rw [hsales1, List.filter_append]
        have h1 : db.sales.filter (fun s => !(s.id == db.next_sale_id)) = db.sales := by
          rw [List.filter_eq_self]
          intro s hs
          simp [hfreshS s hs]
        have h2 : ([⟨db.next_sale_id, now, totalOf lines, .completed,
            .synced⟩] : List SaleRow).filter
            (fun s => !(s.id == db.next_sale_id)) = [] := by
          simp
        rw [h1, h2, List.append_nil]
      · show db1.sale_items.filter _ = db.sale_items
        rw [hitems1, List.filter_append]
        have h1 : db.sale_items.filter (fun it => !(it.sale_id == db.next_sale_id)) =
            db.sale_items := by
          rw [List.filter_eq_self]
          intro it hit
          simp [hfreshI it hit]
        have h2 : (saleItemsOf db.next_sale_id lines).filter
            (fun it => !(it.sale_id == db.next_sale_id)) = [] := by
          rw [List.filter_eq_nil_iff]
          intro it hit
          obtain ⟨l, hl, he⟩ := List.mem_map.mp hit
          subst he
          simp
        rw [h1, h2, List.append_nil]

/-- C9 witness: committing a 2-unit sale and deleting it with
`restore_inventory=true` returns the concrete state's inventories, sales
and sale items to their pre-sale values. -/
theorem c9_delete_sale_reversal_witness :
    ({ products := [⟨1, "A", 2⟩], inventories := [⟨1, 5, 0⟩], sales := [],
       sale_items := [], sync_queue := [], next_sale_id := 2 } : DBState).inventories =
      ({ products := [⟨1, "A", 2⟩], inventories := [⟨1, 5, 0⟩], sales := [],
         sale_items := [], sync_queue := [], next_sale_id := 1 } : DBState).inventories ∧
    ({ products := [⟨1, "A", 2⟩], inventories := [⟨1, 5, 0⟩], sales := [],
       sale_items := [], sync_queue := [], next_sale_id := 2 } : DBState).sales =
      ({ products := [⟨1, "A", 2⟩], inventories := [⟨1, 5, 0⟩], sales := [],
         sale_items := [], sync_queue := [], next_sale_id := 1 } : DBState).sales ∧
    ({ products := [⟨1, "A", 2⟩], inventories := [⟨1, 5, 0⟩], sales := [],
       sale_items := [], sync_queue := [], next_sale_id := 2 } : DBState).sale_items =
      ({ products := [⟨1, "A", 2⟩], inventories := [⟨1, 5, 0⟩], sales := [],
         sale_items := [], sync_queue := [], next_sale_id := 1 } : DBState).sale_items :=
  c9_delete_sale_reversal.2.2
    { products := [⟨1, "A", 2⟩], inventories := [⟨1, 5, 0⟩], sales := [],
      sale_items := [], sync_queue := [], next_sale_id := 1 }
    { products := [⟨1, "A", 2⟩], inventories := [⟨1, 3, 0⟩],
      sales := [⟨1, 7, 4, .completed, .synced⟩],
      sale_items := [⟨1, 1, 2, 2, 4⟩], sync_queue := [], next_sale_id := 2 }
    { products := [⟨1, "A", 2⟩], inventories := [⟨1, 5, 0⟩], sales := [],
      sale_items := [], sync_queue := [], next_sale_id := 2 }
    7 1 ⟨[⟨1, 2⟩]⟩
    (by simp) (by simp)
    (by simp [create_sale, validateItems, findProduct, findInventory, applyLines,
          deductInv, totalOf]
        norm_num)
    (by rfl)

/-- Sync validation of a single well-formed line with sufficient stock. -/
theorem validateSyncItems_single {db : DBState} {pid q : Int}
    {product : Product} {inventory : Inventory}
    (hpid : pid ≠ 0) (hq : q ≠ 0)
    (hp : findProduct db pid = some product)
    (hi : findInventory db pid = some inventory)
    (hstock : ¬ inventory.quantity < q) :
    validateSyncItems db [⟨some pid, some q⟩] =
      .ok [⟨pid, q, product.price, product.price * q⟩] := by
  simp [validateSyncItems, pyFalsy, hpid, hq, hp, hi, hstock]

/-- Sync validation of a single well-formed line with insufficient
stock. -/
theorem validateSyncItems_single_insufficient {db : DBState} {pid q : Int}
    {product : Product} {inventory : Inventory}
    (hpid : pid ≠ 0) (hq : q ≠ 0)
    (hp : findProduct db pid = some product)
    (hi : findInventory db pid = some inventory)
    (hstock : inventory.quantity < q) :
    validateSyncItems db [⟨some pid, some q⟩] =
      .error (insufficientSyncMsg product.name inventory.quantity q) := by
  simp [validateSyncItems, pyFalsy, hpid, hq, hp, hi, hstock]

/-- Replay of a single-line sale entry with sufficient stock, fully
evaluated. -/
theorem process_sale_sync_single_ok {db : DBState} (now : Nat)
    {e : SyncQueueRow} {pid q : Int} {product : Product}
    {inventory : Inventory}
    (hpay : e.payload = some ⟨[⟨some pid, some q⟩], none⟩)
    (hpid : pid ≠ 0) (hq : q ≠ 0)
    (hp : findProduct db pid = some product)
    (hi : findInventory db pid = some inventory)
    (hstock : ¬ inventory.quantity < q) :
    process_sale_sync db now e = .ok
      ({ db with
         sales := db.sales ++
           [⟨db.next_sale_id, now,
             totalOf [⟨pid, q, product.price, product.price * q⟩],
             .completed, .synced⟩],
         sale_items := db.sale_items ++
           [⟨db.next_sale_id, pid, q, product.price, product.price * q⟩],
         inventories := deductInv db.inventories pid q,
         next_sale_id := db.next_sale_id + 1 },
       { e with status := .synced, synced_at := some now }) := by
  have hval := validateSyncItems_single hpid hq hp hi hstock
  simp [process_sale_sync, hpay, hval, applyLines]

/-- Replay of a single-line sale entry with insufficient stock raises the
insufficient-stock `ValueError`. -/
theorem process_sale_sync_single_insufficient {db : DBState} (now : Nat)
    {e : SyncQueueRow} {pid q : Int} {product : Product}
    {inventory : Inventory}
    (hpay : e.payload = some ⟨[⟨some pid, some q⟩], none⟩)
    (hpid : pid ≠ 0) (hq : q ≠ 0)
    (hp : findProduct db pid = some product)
    (hi : findInventory db pid = some inventory)
    (hstock : inventory.quantity < q) :
    process_sale_sync db now e =
      .error (insufficientSyncMsg product.name inventory.quantity q) := by
  have hval := validateSyncItems_single_insufficient hpid hq hp hi hstock
  simp [process_sale_sync, hpay, hval]

/-- C4: replay ordering — the pending snapshot is always attempted in
ascending `created_at` order; concretely, for two pending sale entries
each requesting all `q` remaining units of the same product (in either
storage order), the entry with the earlier `created_at` commits and ends
SYNCED, the later one ends FAILED with the insufficient-stock message, and
stock is decremented only by the earlier one (down to 0). -/
theorem c4_replay_ordering :
    (∀ db : DBState, List.Sorted createdAtLE (pendingSorted db)) ∧
    (∀ (db : DBState) (e1 e2 : SyncQueueRow) (pid q msl : Int) (nm : String)
        (pr : Rat) (now : Nat),
      0 < q → pid ≠ 0 →
      e1.transaction_type = "sale" → e2.transaction_type = "sale" →
      e1.status = SyncStatus.pending → e2.status = SyncStatus.pending →
      e1.payload = some ⟨[⟨some pid, some q⟩], none⟩ →
      e2.payload = some ⟨[⟨some pid, some q⟩], none⟩ →
      e1.created_at < e2.created_at →
      e1.id ≠ e2.id →
      db.products = [⟨pid, nm, pr⟩] →
      db.inventories = [⟨pid, q, msl⟩] →
      (db.sync_queue = [e1, e2] ∨ db.sync_queue = [e2, e1]) →
      (process_sync_queue db now).2 = syncCompleteMsg 1 1 ∧
      findInventory (process_sync_queue db now).1 pid = some ⟨pid, 0, msl⟩ ∧
      (∃ u1 ∈ (process_sync_queue db now).1.sync_queue,
        u1.id = e1.id ∧ u1.status = SyncStatus.synced ∧
        u1.synced_at = some now) ∧
      (∃ u2 ∈ (process_sync_queue db now).1.sync_queue,
        u2.id = e2.id ∧ u2.status = SyncStatus.failed ∧
        u2.error_message = some (insufficientSyncMsg nm 0 q))) := by
  constructor
  · exact pendingSorted_sorted
  · intro db e1 e2 pid q msl nm pr now hq0 hpid ht1 ht2 hs1 hs2 hpay1 hpay2
      hlt hids hP hI hqueue
    have hq' : q ≠ 0 := by omega
    have hp1 : findProduct db pid = some ⟨pid, nm, pr⟩ := by
      simp [findProduct, hP]
    have hi1 : findInventory db pid = some ⟨pid, q, msl⟩ := by
      simp [findInventory, hI]
    have hstock1 : ¬ (⟨pid, q, msl⟩ : Inventory).quantity < q := by simp
    have he1 := process_sale_sync_single_ok now hpay1 hpid hq' hp1 hi1 hstock1
    have hinv2 : deductInv db.inventories pid q = [⟨pid, 0, msl⟩] := by
      simp [deductInv, hI]
    rw [hinv2] at he1
    set u1 : SyncQueueRow := { e1 with status := .synced, synced_at := some now }
      with hu1
    set db2 : DBState :=
      { db with
        sales := db.sales ++
          [⟨db.next_sale_id, now, totalOf [⟨pid, q, pr, pr * q⟩],
            .completed, .synced⟩],
        sale_items := db.sale_items ++ [⟨db.next_sale_id, pid, q, pr, pr * q⟩],
        inventories := [⟨pid, 0, msl⟩],
        next_sale_id := db.next_sale_id + 1 } with hdb2
    have hpe1 : processEntry db now e1 = (db2, u1, true) := by
      simp only [processEntry, if_pos ht1, he1]
    have hp2 : findProduct db2 pid = some ⟨pid, nm, pr⟩ := by
      simp [hdb2, findProduct, hP]
    have hi2 : findInventory db2 pid = some ⟨pid, 0, msl⟩ := by
      simp [hdb2, findInventory]
    have hstock2 : (⟨pid, 0, msl⟩ : Inventory).quantity < q := by
      simpa using hq0
    have he2 : process_sale_sync db2 now e2 =
        .error (insufficientSyncMsg nm 0 q) :=
      process_sale_sync_single_insufficient now hpay2 hpid hq' hp2 hi2 hstock2
    set u2 : SyncQueueRow :=
      { e2 with
        status := .failed,
        error_message := some (insufficientSyncMsg nm 0 q) } with hu2
    have hpe2 : processEntry db2 now e2 = (db2, u2, false) := by
      simp only [processEntry, if_pos ht2, he2]
    have hle : createdAtLE e1 e2 := Nat.le_of_lt hlt
    have hnle : ¬ createdAtLE e2 e1 := by
      simp only [createdAtLE]
      omega
    have hpend : pendingSorted db = [e1, e2] := by
      rcases hqueue with hqq | hqq
      · simp [pendingSorted, orderByCreatedAt, hqq, hs1, hs2,
          List.insertionSort, List.orderedInsert, hle, hnle]
      · simp [pendingSorted, orderByCreatedAt, hqq, hs1, hs2,
          List.insertionSort, List.orderedInsert, hle, hnle]
    have hloop : processLoop db now [e1, e2] = (db2, [u1, u2], 1, 1) := by
      simp [processLoop, hpe1, hpe2]
    have hne : pendingSorted db ≠ [] := by rw [hpend]; simp
    have hmain := @process_sync_queue_eq db now hne
    rw [hpend] at hmain
    simp only [hloop] at hmain
    have hq2 : db2.sync_queue = db.sync_queue := rfl
    have hf1 : ([u1, u2].find? (fun u => u.id == e1.id)) = some u1 := by
      simp [hu1]
    have hf2 : ([u1, u2].find? (fun u => u.id == e2.id)) = some u2 := by
      have : (e1.id == e2.id) = false := by
        simp [hids]
      simp [hu1, hu2, this]
    have hupd : updateEntries db.sync_queue [u1, u2] = [u1, u2] ∨
        updateEntries db.sync_queue [u1, u2] = [u2, u1] := by
      rcases hqueue with hqq | hqq
      · left
        rw [hqq]
        simp [updateEntries, hf1, hf2]
      · right
        rw [hqq]
        simp [updateEntries, hf1, hf2]
    refine ⟨?_, ?_, ?_, ?_⟩
    · rw [hmain]
    · rw [hmain]
      simp [findInventory]
    · rw [hmain]
      show ∃ u ∈ updateEntries db.sync_queue [u1, u2],
        u.id = e1.id ∧ u.status = SyncStatus.synced ∧ u.synced_at = some now
      rcases hupd with hU | hU <;> rw [hU]
      · exact ⟨u1, by simp, rfl, rfl, rfl⟩
      · exact ⟨u1, by simp, rfl, rfl, rfl⟩
    · rw [hmain]
      show ∃ u ∈ updateEntries db.sync_queue [u1, u2],
        u.id = e2.id ∧ u.status = SyncStatus.failed ∧
        u.error_message = some (insufficientSyncMsg nm 0 q)
      rcases hupd with hU | hU <;> rw [hU]
      · exact ⟨u2, by simp, rfl, rfl, rfl⟩
      · exact ⟨u2, by simp, rfl, rfl, rfl⟩

/-- C4 witness: the spec's example — two pending entries both requesting
the last 10 units of product 1, stored in reverse order: the earlier one
(created_at 10) syncs, the later one (created_at 20) fails with the
insufficient-stock message, stock ends at 0 and the tally is 1/1. -/
theorem c4_replay_ordering_witness :
    (process_sync_queue
        { products := [⟨1, "A", 2⟩], inventories := [⟨1, 10, 0⟩], sales := [],
          sale_items := [],
          sync_queue := [⟨2, "sale", some ⟨[⟨some 1, some 10⟩], none⟩, .pending, 20, none, none⟩,
            ⟨1, "sale", some ⟨[⟨some 1, some 10⟩], none⟩, .pending, 10, none, none⟩],
          next_sale_id := 1 }
        99).2 = syncCompleteMsg 1 1 ∧
    findInventory
      (process_sync_queue
        { products := [⟨1, "A", 2⟩], inventories := [⟨1, 10, 0⟩], sales := [],
          sale_items := [],
          sync_queue := [⟨2, "sale", some ⟨[⟨some 1, some 10⟩], none⟩, .pending, 20, none, none⟩,
            ⟨1, "sale", some ⟨[⟨some 1, some 10⟩], none⟩, .pending, 10, none, none⟩],
          next_sale_id := 1 }
        99).1 1 = some ⟨1, 0, 0⟩ ∧
    (∃ u1 ∈ (process_sync_queue
        { products := [⟨1, "A", 2⟩], inventories := [⟨1, 10, 0⟩], sales := [],
          sale_items := [],
          sync_queue := [⟨2, "sale", some ⟨[⟨some 1, some 10⟩], none⟩, .pending, 20, none, none⟩,
            ⟨1, "sale", some ⟨[⟨some 1, some 10⟩], none⟩, .pending, 10, none, none⟩],
          next_sale_id := 1 }
        99).1.sync_queue,
      u1.id = (⟨1, "sale", some ⟨[⟨some 1, some 10⟩], none⟩, .pending, 10, none, none⟩ : SyncQueueRow).id ∧
      u1.status = SyncStatus.synced ∧ u1.synced_at = some 99) ∧
    (∃ u2 ∈ (process_sync_queue
        { products := [⟨1, "A", 2⟩], inventories := [⟨1, 10, 0⟩], sales := [],
          sale_items := [],
          sync_queue := [⟨2, "sale", some ⟨[⟨some 1, some 10⟩], none⟩, .pending, 20, none, none⟩,
            ⟨1, "sale", some ⟨[⟨some 1, some 10⟩], none⟩, .pending, 10, none, none⟩],
          next_sale_id := 1 }
        99).1.sync_queue,
      u2.id = (⟨2, "sale", some ⟨[⟨some 1, some 10⟩], none⟩, .pending, 20, none, none⟩ : SyncQueueRow).id ∧
      u2.status = SyncStatus.failed ∧
      u2.error_message = some (insufficientSyncMsg "A" 0 10)) :=
  c4_replay_ordering.2
    { products := [⟨1, "A", 2⟩], inventories := [⟨1, 10, 0⟩], sales := [],
          sale_items := [],
          sync_queue := [⟨2, "sale", some ⟨[⟨some 1, some 10⟩], none⟩, .pending, 20, none, none⟩,
            ⟨1, "sale", some ⟨[⟨some 1, some 10⟩], none⟩, .pending, 10, none, none⟩],
          next_sale_id := 1 }
    ⟨1, "sale", some ⟨[⟨some 1, some 10⟩], none⟩, .pending, 10, none, none⟩
    ⟨2, "sale", some ⟨[⟨some 1, some 10⟩], none⟩, .pending, 20, none, none⟩
    1 10 0 "A" 2 99
    (by decide) (by decide) rfl rfl rfl rfl rfl rfl
    (by decide) (by decide) rfl rfl (Or.inr rfl)
